import Mathlib

/-!
Verification development for the openxr-pp interception layer.

The repository is a Rust OpenXR API layer.  This file gives a shallow
embedding of the parts of the code reachable from the claims:

* `src/common/src/interaction_profiles.rs` — `Feature` and its
  `from_str` / `to_str` / `get_type` functions;
* `src/layer/src/util.rs` — `place_cstr`;
* `src/layer/src/wrappers.rs` — the handle registry accessors
  (`HandleWrapper::from_handle`, the `from_handle_panic` variants), the
  weak back-reference accessors (`SessionWrapper::instance`,
  `ActionSetWrapper::instance`), and `SessionWrapper::new`;
* `src/src/lib.rs` — the dispatch entry points `create_session`,
  `create_action_set`, `create_action`.

Machine integers carry no arithmetic in the embedded code, so handles and
native paths are modelled as `Nat`, and `xr::Result` codes as `Int`
(an error is a negative raw value, exactly the `result.into_raw() < 0`
tests in the source).  Byte buffers are lists of byte values (`List Nat`).
Rust `HashMap`s are modelled as association lists with insert-or-replace
semantics; iteration order of a `HashMap` is unspecified in Rust, and no
claim below depends on the particular order of the modelling lists.
Fallible Rust (`Result`, `?`) becomes `Except Int`; a Rust panic, such as
an unchecked `Option::unwrap`, is an explicit `XrStep.panicked` outcome.
-/

namespace OpenxrPP

/-- Association-list lookup: first binding of the key, as `HashMap::get`. -/
def lookupAssoc {κ ν : Type} [DecidableEq κ] : List (κ × ν) → κ → Option ν
  | [], _ => none
  | (k', v) :: rest, k => if k' = k then some v else lookupAssoc rest k

/-- Association-list insert with `HashMap::insert` semantics: replace the
binding in place if the key is present, otherwise append a new binding. -/
def insertAssoc {κ ν : Type} [DecidableEq κ] : List (κ × ν) → κ → ν → List (κ × ν)
  | [], k, v => [(k, v)]
  | (k', v') :: rest, k, v =>
    if k' = k then (k, v) :: rest else (k', v') :: insertAssoc rest k v

theorem lookupAssoc_insertAssoc_self {κ ν : Type} [DecidableEq κ]
    (m : List (κ × ν)) (k : κ) (v : ν) :
    lookupAssoc (insertAssoc m k v) k = some v := by
  induction m with
  | nil => simp [insertAssoc, lookupAssoc]
  | cons hd tl ih =>
    obtain ⟨k', v'⟩ := hd
    by_cases h : k' = k
    · simp [insertAssoc, lookupAssoc, h]
    · simp [insertAssoc, lookupAssoc, h, ih]

theorem lookupAssoc_insertAssoc_ne {κ ν : Type} [DecidableEq κ]
    (m : List (κ × ν)) (k k' : κ) (v : ν) (h : k' ≠ k) :
    lookupAssoc (insertAssoc m k v) k' = lookupAssoc m k' := by
  have hne : ¬ k = k' := fun e => h e.symm
  induction m with
  | nil => simp [insertAssoc, lookupAssoc, hne]
  | cons hd tl ih =>
    obtain ⟨k₀, v₀⟩ := hd
    by_cases hk : k₀ = k
    · subst hk
      simp [insertAssoc, lookupAssoc, hne]
    · simp [insertAssoc, lookupAssoc, hk, ih]

/-- Outcome of a call that may return an XR error code or panic the
process (an unchecked `unwrap`). -/
inductive XrStep (α : Type) where
  | panicked (msg : String)
  | err (r : Int)
  | ok (a : α)

def XrStep.isPanicked {α : Type} : XrStep α → Bool
  | .panicked _ => true
  | _ => false

def XrStep.isOk {α : Type} : XrStep α → Bool
  | .ok _ => true
  | _ => false

/-! ### `ActionType` and `Feature` (src/common)

The `ActionType` enum is declared in `src/common/src/xrapplication_info.rs`,
which is not under `src/`; its variants are fixed by their uses in
`interaction_profiles.rs` (`Feature::get_type`) and `src/src/lib.rs`. -/

inductive ActionType where
  | BooleanInput
  | FloatInput
  | Vector2fInput
  | PoseInput
  | VibrationOutput
  | Unknown
deriving DecidableEq, Repr

/-- `Feature` from `src/common/src/interaction_profiles.rs`. -/
inductive Feature where
  | Click
  | Touch
  | Force
  | Value
  | Position
  | Twist
  | Pose
  | Haptic
  | Unknown (s : String)
deriving DecidableEq, Repr

/-- `Feature::from_str`: the Rust `match` on the tag string. -/
def Feature.from_str (string : String) : Feature :=
  if string = "click" then Feature.Click
  else if string = "touch" then Feature.Touch
  else if string = "force" then Feature.Force
  else if string = "value" then Feature.Value
  else if string = "position" then Feature.Position
  else if string = "twist" then Feature.Twist
  else if string = "pose" then Feature.Pose
  else if string = "haptic" then Feature.Haptic
  else Feature.Unknown string

/-- `Feature::to_str`. -/
def Feature.to_str : Feature → String
  | Feature.Click => "click"
  | Feature.Touch => "touch"
  | Feature.Force => "force"
  | Feature.Value => "value"
  | Feature.Position => "position"
  | Feature.Twist => "twist"
  | Feature.Pose => "pose"
  | Feature.Haptic => "haptic"
  | Feature.Unknown str => str

/-- `Feature::get_type`. -/
def Feature.get_type : Feature → ActionType
  | Feature.Click | Feature.Touch => ActionType.BooleanInput
  | Feature.Force | Feature.Value | Feature.Twist => ActionType.FloatInput
  | Feature.Position => ActionType.Vector2fInput
  | Feature.Pose => ActionType.PoseInput
  | Feature.Haptic => ActionType.VibrationOutput
  | Feature.Unknown _ => ActionType.Unknown

/-- C8: `Feature::get_type` is a total pure function on `Feature` mapping
Click and Touch to the boolean kind, Force, Value and Twist to the float
kind, Position to the 2D-vector kind, Pose to the pose kind, Haptic to the
vibration-output kind, and every Unknown tag to the unknown
(non-actionable) kind. -/
theorem feature_get_type_total_map :
    Feature.get_type Feature.Click = ActionType.BooleanInput ∧
    Feature.get_type Feature.Touch = ActionType.BooleanInput ∧
    Feature.get_type Feature.Force = ActionType.FloatInput ∧
    Feature.get_type Feature.Value = ActionType.FloatInput ∧
    Feature.get_type Feature.Twist = ActionType.FloatInput ∧
    Feature.get_type Feature.Position = ActionType.Vector2fInput ∧
    Feature.get_type Feature.Pose = ActionType.PoseInput ∧
    Feature.get_type Feature.Haptic = ActionType.VibrationOutput ∧
    (∀ s : String, Feature.get_type (Feature.Unknown s) = ActionType.Unknown) :=
  ⟨rfl, rfl, rfl, rfl, rfl, rfl, rfl, rfl, fun _ => rfl⟩

/-- C9: for every known feature tag `f`, `from_str (to_str f) = f`; and
every string `s` that is not one of the eight known tag strings satisfies
`from_str s = Unknown s` and `to_str (from_str s) = s`. -/
theorem feature_str_roundtrip :
    (∀ f : Feature, (∀ s : String, f ≠ Feature.Unknown s) →
      Feature.from_str (Feature.to_str f) = f) ∧
    (∀ s : String,
      s ∉ ["click", "touch", "force", "value", "position", "twist", "pose", "haptic"] →
      Feature.from_str s = Feature.Unknown s ∧
      Feature.to_str (Feature.from_str s) = s) := by
  constructor
  · intro f hf
    cases f with
    | Unknown s => exact absurd rfl (hf s)
    | _ => rfl
  · intro s hs
    simp only [List.mem_cons, List.not_mem_nil, or_false, not_or] at hs
    obtain ⟨h1, h2, h3, h4, h5, h6, h7, h8⟩ := hs
    constructor
    · simp [Feature.from_str, h1, h2, h3, h4, h5, h6, h7, h8]
    · simp [Feature.from_str, h1, h2, h3, h4, h5, h6, h7, h8, Feature.to_str]

/-- Witness for C9 at the concrete tag `click` and the concrete unknown
tag string `grip_surface`. -/
theorem feature_str_roundtrip_witness :
    Feature.from_str (Feature.to_str Feature.Click) = Feature.Click ∧
    (Feature.from_str "grip_surface" = Feature.Unknown "grip_surface" ∧
      Feature.to_str (Feature.from_str "grip_surface") = "grip_surface") :=
  ⟨feature_str_roundtrip.1 Feature.Click (fun _ h => nomatch h),
    feature_str_roundtrip.2 "grip_surface" (by decide)⟩

/-! ### `place_cstr` (src/layer/src/util.rs)

`place_cstr(out, s)` panics when `s.len() + 1 > out.len()`; otherwise it
copies the bytes of `s` over the front of `out` (`s.bytes().zip(out)`)
and then stores a 0 terminator at index `s.len()`.  Buffers of C chars and
the UTF-8 bytes of the `&str` argument are both modelled as lists of byte
values (the `u8 as c_char` cast is a bijection on bit patterns). -/

/-- The `for (i, o) in s.bytes().zip(out.iter_mut())` loop: overwrite the
first `min (s.length) (out.length)` elements of `out` with `s`. -/
def place_cstr_loop : List Nat → List Nat → List Nat
  | out, [] => out
  | [], _ :: _ => []
  | _ :: out', b :: s' => b :: place_cstr_loop out' s'

/-- `place_cstr` from `src/layer/src/util.rs`. -/
def place_cstr (out : List Nat) (s : List Nat) : XrStep (List Nat) :=
  if s.length + 1 > out.length then
    XrStep.panicked "string requires more bytes (including trailing null)"
  else
    XrStep.ok ((place_cstr_loop out s).set s.length 0)

theorem place_cstr_loop_eq (s : List Nat) :
    ∀ out : List Nat, s.length ≤ out.length →
      place_cstr_loop out s = s ++ out.drop s.length := by
  induction s with
  | nil => intro out _; simp [place_cstr_loop]
  | cons b s' ih =>
    intro out hlen
    cases out with
    | nil => simp at hlen
    | cons o out' =>
      simp only [List.length_cons, Nat.add_le_add_iff_right] at hlen
      simp [place_cstr_loop, ih out' hlen]

theorem list_set_append_len {α : Type} (a : List α) (b : List α) (x : α) :
    (a ++ b).set a.length x = a ++ b.set 0 x := by
  induction a with
  | nil => simp
  | cons hd tl ih => simp [List.set, ih]

/-- C10: `place_cstr` panics iff `s.len() + 1 > out.len()`; under the
precondition it writes the bytes of `s` at the front of `out`, a 0
terminator at index `s.len()`, and leaves every later element of `out`
unchanged — i.e. the buffer becomes `s ++ 0 :: out.drop (s.len() + 1)`. -/
theorem place_cstr_spec (out s : List Nat) :
    ((place_cstr out s).isPanicked = true ↔ s.length + 1 > out.length) ∧
    (s.length + 1 ≤ out.length →
      place_cstr out s = XrStep.ok (s ++ 0 :: out.drop (s.length + 1))) := by
  constructor
  · by_cases h : s.length + 1 > out.length
    · simp [place_cstr, h, XrStep.isPanicked]
    · simp [place_cstr, h, XrStep.isPanicked]
  · intro hle
    have hlt : s.length < out.length := hle
    have hdrop : out.drop s.length = out[s.length] :: out.drop (s.length + 1) :=
      List.drop_eq_getElem_cons hlt
    have hnp : ¬ s.length + 1 > out.length := not_lt.mpr hle
    simp only [place_cstr, hnp, if_neg, ite_false]
    rw [place_cstr_loop_eq s out (Nat.le_of_lt hlt), list_set_append_len, hdrop]
    rfl

/-- Witness for C10: a successful placement into a 4-byte buffer, and a
panicking call on a 1-byte buffer. -/
theorem place_cstr_spec_witness :
    place_cstr [7, 7, 7, 7] [1, 2] = XrStep.ok [1, 2, 0, 7] ∧
    (place_cstr [9] [1]).isPanicked = true :=
  ⟨(place_cstr_spec [7, 7, 7, 7] [1, 2]).2 (by decide),
    (place_cstr_spec [9] [1]).1.mpr (by decide)⟩

/-! ### Wrapper graph and god actions (src/layer/src/wrappers.rs)

Native handles (`xr::Instance`, `xr::Session`, `xr::Action`, …) and native
paths (`xr::Path`) are opaque identifiers; both are modelled as `Nat`.
`god_actions.rs` of the layer crate is not under `src/`; the types it
declares (`GodActionSet`, `GodAction`, `GodState`, `ActionState`) and the
helpers `ActionType::is_input` and `ActionState::new` are modelled from
the spec, as marked below. -/

/-- An opaque `xr::Path` atom. -/
abbrev XrPath : Type := Nat

/-- Modelled from the spec: `ActionType::is_input` from the missing
`src/common/src/xrapplication_info.rs` — the *input* kinds are boolean,
float, vector2f and pose; vibration outputs are excluded, and the unknown
kind is not actionable (spec sections 3 and 4.3 step 3). -/
def ActionType.is_input : ActionType → Bool
  | ActionType.BooleanInput => true
  | ActionType.FloatInput => true
  | ActionType.Vector2fInput => true
  | ActionType.PoseInput => true
  | ActionType.VibrationOutput => false
  | ActionType.Unknown => false

/-- Modelled from the spec: the `ActionState` tagged union of the missing
`god_actions.rs` — one variant per input action kind, carrying the cached
value together with its changed/is-active flags (spec section 3,
"ActionState").  The float and 2D-vector payloads stand for `f32` values;
only the rest state 0 appears in the claims, so they are modelled as
rationals. -/
inductive ActionState where
  | boolean (currentState : Bool) (changedSinceLastSync : Bool) (isActive : Bool)
  | float (currentState : Rat) (changedSinceLastSync : Bool) (isActive : Bool)
  | vector2f (x : Rat) (y : Rat) (changedSinceLastSync : Bool) (isActive : Bool)
  | pose (isActive : Bool)
deriving DecidableEq, Repr

/-- Modelled from the spec: `ActionState::new` of the missing
`god_actions.rs` seeds the fresh rest-state value for an action kind —
boolean=false, float=0.0, vector2f=(0,0), pose=identity/invalid, with all
flags false; there is no state for vibration outputs or unknown kinds
(spec sections 4.3 step 3 and 8). -/
def ActionState.new : ActionType → Option ActionState
  | ActionType.BooleanInput => some (ActionState.boolean false false false)
  | ActionType.FloatInput => some (ActionState.float 0 false false)
  | ActionType.Vector2fInput => some (ActionState.vector2f 0 0 false false)
  | ActionType.PoseInput => some (ActionState.pose false)
  | ActionType.VibrationOutput => none
  | ActionType.Unknown => none

/-- Modelled from the spec: a `GodAction` of the missing `god_actions.rs`
— a synthetic action with its native handle, derived kind, name, and the
subaction paths declared by its profile (spec section 3, "GodAction");
the fields are exactly the ones `SessionWrapper::new` reads. -/
structure GodAction where
  handle : Nat
  name : String
  action_type : ActionType
  subaction_paths : List XrPath
deriving DecidableEq

/-- Modelled from the spec: a `GodActionSet` of the missing
`god_actions.rs` — the per-profile synthetic action set, holding its
native handle and a map from god-action name to `GodAction`
(spec section 3, "GodActionSet"). -/
structure GodActionSet where
  handle : Nat
  god_actions : List (String × GodAction)
deriving DecidableEq

/-- `GodState` as constructed by `SessionWrapper::new`
(fields from the construction site in wrappers.rs; the struct itself is
declared in the missing `god_actions.rs`). -/
structure GodState where
  action_handle : Nat
  name : String
  subaction_path : XrPath
  action_state : ActionState
deriving DecidableEq

/-- `InstanceWrapper`, restricted to the fields the claims touch: the
per-profile god action sets and the forwarded calls of the next layer
(`core.path_to_string`, `core.string_to_path`,
`core.attach_session_action_sets`, and
`core.suggest_interaction_profile_bindings`).  The next layer is an
opaque collaborator, so its calls are modelled as oracle fields: path
resolution as fallible functions, and the results it returns for the
attach and suggest calls made during `SessionWrapper::new`.  The child
lists, application/engine metadata and raw function-pointer table carried
by the Rust struct play no part in the claims and are omitted. -/
structure InstanceWrapper where
  handle : Nat
  god_action_sets : List (XrPath × GodActionSet)
  core_path_to_string : XrPath → Except Int String
  core_string_to_path : String → Except Int XrPath
  core_attach_result : Int
  core_suggest_result : XrPath → List (Nat × XrPath) → Int

/-- `SessionWrapper`, restricted to the fields the claims touch.  The Rust
struct's `instance: Weak<InstanceWrapper>` back-reference is modelled as
an `Option`: `some` is a weak reference whose target is still alive (an
upgrade succeeds), `none` one whose `Instance` has been destroyed (an
upgrade fails).  `god_states` is the per-profile, per-binding-path map.
The `attached_actions` / `cached_action_states` once-cells are untouched
by the claims and omitted. -/
structure SessionWrapper where
  handle : Nat
  instance_ref : Option InstanceWrapper
  god_states : List (XrPath × List (XrPath × GodState))

/-- `ActionSetWrapper`, restricted to the fields the claims touch; the
weak `instance` back-reference is modelled as for `SessionWrapper`. -/
structure ActionSetWrapper where
  handle : Nat
  instance_ref : Option InstanceWrapper
  name : String
  localized_name : String
  priority : Nat

/-- `SessionWrapper::instance`: upgrade the weak back-reference and
`unwrap` it — a panic when the `Instance` has been destroyed
(wrappers.rs line 332). -/
def SessionWrapper.instance_ (s : SessionWrapper) : XrStep InstanceWrapper :=
  match s.instance_ref with
  | some i => XrStep.ok i
  | none => XrStep.panicked "called Option::unwrap on a None value"

/-- `ActionSetWrapper::instance`: same upgrade-and-`unwrap` pattern
(wrappers.rs line 410). -/
def ActionSetWrapper.instance_ (a : ActionSetWrapper) : XrStep InstanceWrapper :=
  match a.instance_ref with
  | some i => XrStep.ok i
  | none => XrStep.panicked "called Option::unwrap on a None value"

/-! ### Handle registry (src/layer/src/wrappers.rs)

The `DashMap` handle registries are modelled as association lists from
`Nat` handles to wrapper values, generic in the wrapper type exactly like
the `HandleWrapper` trait. -/

/-- `HandleWrapper::from_handle`: `all_handles().get(&handle)` — `some`
wrapper, or `none` when the handle was never registered or was removed. -/
def from_handle {W : Type} (all_handles : List (Nat × W)) (handle : Nat) : Option W :=
  lookupAssoc all_handles handle

/-- The `from_handle_panic` accessors (`InstanceWrapper`,
`SessionWrapper`, `ActionSetWrapper`, `ActionWrapper` all share this
shape): `map.get(&handle).unwrap()` — a process panic when the handle is
not registered. -/
def from_handle_panic {W : Type} (all_handles : List (Nat × W)) (handle : Nat) : XrStep W :=
  match lookupAssoc all_handles handle with
  | some w => XrStep.ok w
  | none => XrStep.panicked "called Option::unwrap on a None value"

/-- Counterexample for C6: looking up a never-registered handle through a
`from_handle_panic` accessor panics the process instead of surfacing an
invalid-handle error. -/
theorem from_handle_panic_cex :
    (from_handle_panic ([] : List (Nat × Unit)) 1).isPanicked = true := rfl

/-- C6 (amended): a lookup of an unregistered or removed handle through
`HandleWrapper::from_handle` returns `None` (NotFound) without panicking,
so the caller can surface an invalid-handle error; the `from_handle_panic`
accessors panic on such a handle. -/
theorem handle_lookup_amended {W : Type} (m : List (Nat × W)) (h : Nat)
    (hmiss : lookupAssoc m h = none) :
    from_handle m h = none ∧ (from_handle_panic m h).isPanicked = true := by
  refine ⟨hmiss, ?_⟩
  simp [from_handle_panic, hmiss, XrStep.isPanicked]

/-- Witness for the amended C6 on the empty registry and handle 1. -/
theorem handle_lookup_amended_witness :
    from_handle ([] : List (Nat × Unit)) 1 = none ∧
    (from_handle_panic ([] : List (Nat × Unit)) 1).isPanicked = true :=
  handle_lookup_amended ([] : List (Nat × Unit)) 1 rfl

/-- A session wrapper whose owning `Instance` has been destroyed: the
weak back-reference no longer upgrades. -/
def deadSession : SessionWrapper :=
  { handle := 5, instance_ref := none, god_states := [] }

/-- An action-set wrapper whose owning `Instance` has been destroyed. -/
def deadActionSet : ActionSetWrapper :=
  { handle := 6, instance_ref := none, name := "set", localized_name := "Set", priority := 0 }

/-- Counterexample for C7: after the `Instance` is destroyed, resolving a
surviving `Session`'s back-reference panics (the failed weak upgrade is
unwrapped) instead of failing gracefully. -/
theorem weak_backref_cex :
    (SessionWrapper.instance_ deadSession).isPanicked = true := rfl

/-- C7 (amended): the back-references are weak — after the `Instance` is
destroyed the upgrade yields nothing and the accessor panics on the
unwrap, rather than failing gracefully; while the `Instance` is alive the
accessor returns it. -/
theorem weak_backref_amended (s : SessionWrapper) (a : ActionSetWrapper) :
    (s.instance_ref = none → (SessionWrapper.instance_ s).isPanicked = true) ∧
    (∀ i, s.instance_ref = some i → SessionWrapper.instance_ s = XrStep.ok i) ∧
    (a.instance_ref = none → (ActionSetWrapper.instance_ a).isPanicked = true) ∧
    (∀ i, a.instance_ref = some i → ActionSetWrapper.instance_ a = XrStep.ok i) := by
  refine ⟨?_, ?_, ?_, ?_⟩
  · intro h; simp [SessionWrapper.instance_, h, XrStep.isPanicked]
  · intro i h; simp [SessionWrapper.instance_, h]
  · intro h; simp [ActionSetWrapper.instance_, h, XrStep.isPanicked]
  · intro i h; simp [ActionSetWrapper.instance_, h]

/-- Witness for the amended C7 on concrete dead wrappers. -/
theorem weak_backref_amended_witness :
    (SessionWrapper.instance_ deadSession).isPanicked = true ∧
    (ActionSetWrapper.instance_ deadActionSet).isPanicked = true :=
  ⟨(weak_backref_amended deadSession deadActionSet).1 rfl,
    (weak_backref_amended deadSession deadActionSet).2.2.1 rfl⟩

/-! ### `SessionWrapper::new` (wrappers.rs lines 243–318)

The constructor forwards one attach-action-sets call carrying the handles
of all god action sets, aborting on its error; then, per profile of the
instance's registry, seeds a `GodState` per input god action per subaction
path (each resolution error propagating through `?`), and finally forwards
one suggest-bindings call per profile built from that profile's
accumulated states — discarding the suggest call's result.  The model
returns the outcome together with the list of forwarded suggest-bindings
calls, in order; calls made before a mid-sequence failure remain
recorded, exactly as their side effects have already happened in Rust. -/

/-- One forwarded `suggest_interaction_profile_bindings` call: the
profile, the `(god action handle, binding path)` pairs it carried, and
the result the next layer returned (which wrappers.rs line 314 ignores). -/
structure SuggestCall where
  interaction_profile : XrPath
  suggested_bindings : List (Nat × XrPath)
  result : Int
deriving DecidableEq, Repr

/-- The resolved native path of the binding
`path_to_string(subaction_path) + god_action.name` for one god action and
one subaction path (wrappers.rs lines 283–287). -/
def bindingKey (inst : InstanceWrapper) (ga : GodAction) (sp : XrPath) : Except Int XrPath :=
  match inst.core_path_to_string sp with
  | Except.error r => Except.error r
  | Except.ok ps => inst.core_string_to_path (ps ++ ga.name)

/-- Whether a fallible call succeeded. -/
def exceptOk {ε α : Type} : Except ε α → Bool
  | Except.ok _ => true
  | Except.error _ => false

/-- The inner `for subaction_path in &god_action.subaction_paths` loop of
`SessionWrapper::new`: resolve the concatenated binding path and insert a
fresh rest-state `GodState` keyed by it; `?` on either resolution
propagates the error, and the `.unwrap()` on `ActionState::new` panics
when the kind has no state. -/
def insertGodStates (inst : InstanceWrapper) (ga : GodAction) :
    List XrPath → List (XrPath × GodState) → XrStep (List (XrPath × GodState))
  | [], states => XrStep.ok states
  | sp :: rest, states =>
    match inst.core_path_to_string sp with
    | Except.error r => XrStep.err r
    | Except.ok ps =>
      match inst.core_string_to_path (ps ++ ga.name) with
      | Except.error r => XrStep.err r
      | Except.ok key =>
        match ActionState.new ga.action_type with
        | none => XrStep.panicked "called Option::unwrap on a None value"
        | some st =>
          insertGodStates inst ga rest
            (insertAssoc states key
              { action_handle := ga.handle, name := ps ++ ga.name,
                subaction_path := sp, action_state := st })

/-- The `for god_action in god_action_set.god_actions.values()` loop:
only god actions of an input kind seed states. -/
def populateActions (inst : InstanceWrapper) :
    List GodAction → List (XrPath × GodState) → XrStep (List (XrPath × GodState))
  | [], states => XrStep.ok states
  | ga :: rest, states =>
    if ga.action_type.is_input then
      match insertGodStates inst ga ga.subaction_paths states with
      | XrStep.ok states' => populateActions inst rest states'
      | XrStep.err r => XrStep.err r
      | XrStep.panicked m => XrStep.panicked m
    else populateActions inst rest states

/-- The outer `for (profile_name, god_action_set) in &instance.god_action_sets`
loop: get-or-insert the profile's states map, populate it, then forward
one suggest-bindings call carrying every `(action handle, path)` pair of
that map — its result is recorded but, as in the source, ignored. -/
def attachProfiles (inst : InstanceWrapper) :
    List (XrPath × GodActionSet) → List (XrPath × List (XrPath × GodState)) →
    List SuggestCall →
    XrStep (List (XrPath × List (XrPath × GodState))) × List SuggestCall
  | [], gs, calls => (XrStep.ok gs, calls)
  | (profile_name, god_action_set) :: rest, gs, calls =>
    match populateActions inst (god_action_set.god_actions.map Prod.snd)
        ((lookupAssoc gs profile_name).getD []) with
    | XrStep.err r => (XrStep.err r, calls)
    | XrStep.panicked m => (XrStep.panicked m, calls)
    | XrStep.ok states =>
      attachProfiles inst rest (insertAssoc gs profile_name states)
        (calls ++ [{ interaction_profile := profile_name,
                     suggested_bindings := states.map (fun e => (e.2.action_handle, e.1)),
                     result := inst.core_suggest_result profile_name
                       (states.map (fun e => (e.2.action_handle, e.1))) }])

/-- `SessionWrapper::new`: forward the attach-action-sets call and abort
on its error; otherwise run the per-profile population/suggest loop and
produce the wrapper (with a live weak back-reference to the instance). -/
def SessionWrapper.new (handle : Nat) (inst : InstanceWrapper) :
    XrStep SessionWrapper × List SuggestCall :=
  if inst.core_attach_result < 0 then (XrStep.err inst.core_attach_result, [])
  else
    match attachProfiles inst inst.god_action_sets [] [] with
    | (XrStep.ok gs, calls) =>
      (XrStep.ok { handle := handle, instance_ref := some inst, god_states := gs }, calls)
    | (XrStep.err r, calls) => (XrStep.err r, calls)
    | (XrStep.panicked m, calls) => (XrStep.panicked m, calls)

/-- C3: when the forwarded attach-action-sets call fails, the session
constructor returns that error; no wrapper is produced, no god state is
populated, and no suggest-bindings call has been forwarded. -/
theorem session_new_attach_error_aborts (handle : Nat) (inst : InstanceWrapper)
    (hfail : inst.core_attach_result < 0) :
    SessionWrapper.new handle inst = (XrStep.err inst.core_attach_result, []) := by
  simp [SessionWrapper.new, hfail]

/-- An instance whose next layer rejects the attach call with error -3. -/
def cInstAttachFail : InstanceWrapper :=
  { handle := 1
    god_action_sets := [(100, { handle := 40, god_actions := [] })]
    core_path_to_string := fun _ => Except.error (-1)
    core_string_to_path := fun _ => Except.error (-1)
    core_attach_result := -3
    core_suggest_result := fun _ _ => 0 }

/-- Witness for C3 on a concrete instance whose attach call fails. -/
theorem session_new_attach_error_aborts_witness :
    SessionWrapper.new 9 cInstAttachFail = (XrStep.err (-3), []) :=
  session_new_attach_error_aborts 9 cInstAttachFail (by decide)

/-! ### C4: error reporting of the attach sequence -/

/-- Forget the payload of an outcome, keeping only its class
(ok / error code / panic). -/
def XrStep.discard {α : Type} : XrStep α → XrStep Unit
  | XrStep.ok _ => XrStep.ok ()
  | XrStep.err r => XrStep.err r
  | XrStep.panicked m => XrStep.panicked m

/-- The part of a forwarded suggest call chosen by this layer (profile
and bindings), without the result the next layer returned for it. -/
def SuggestCall.shape (c : SuggestCall) : XrPath × List (Nat × XrPath) :=
  (c.interaction_profile, c.suggested_bindings)

/-- A god action of the Khronos simple-controller profile used by the
concrete instances below. -/
def gaSelectClick : GodAction :=
  { handle := 7, name := "/input/select/click", action_type := ActionType.BooleanInput,
    subaction_paths := [1] }

/-- A concrete instance whose next layer accepts the attach call and all
path resolutions but rejects every suggest-bindings call with error -2. -/
def cInstSuggestFail : InstanceWrapper :=
  { handle := 1
    god_action_sets := [(100, { handle := 40, god_actions := [("/input/select/click", gaSelectClick)] })]
    core_path_to_string := fun sp => if sp = 1 then Except.ok "/user/hand/left" else Except.error (-1)
    core_string_to_path := fun s =>
      if s = "/user/hand/left/input/select/click" then Except.ok 11 else Except.error (-1)
    core_attach_result := 0
    core_suggest_result := fun _ _ => -2 }

/-- Counterexample for C4: the forwarded suggest-bindings call fails with
-2, yet `SessionWrapper::new` still returns success — the failure is not
reported to the caller. -/
theorem session_new_suggest_error_ignored_cex :
    (SessionWrapper.new 9 cInstSuggestFail).1.isOk = true ∧
    (SessionWrapper.new 9 cInstSuggestFail).2.map SuggestCall.result = [-2] := by
  constructor <;> rfl

theorem insertGodStates_suggest_indep (inst : InstanceWrapper)
    (f : XrPath → List (Nat × XrPath) → Int) (ga : GodAction) (sps : List XrPath) :
    ∀ states, insertGodStates { inst with core_suggest_result := f } ga sps states =
      insertGodStates inst ga sps states := by
  induction sps with
  | nil => intro states; rfl
  | cons sp rest ih => intro states; simp [insertGodStates, ih]

theorem populateActions_suggest_indep (inst : InstanceWrapper)
    (f : XrPath → List (Nat × XrPath) → Int) (gas : List GodAction) :
    ∀ states, populateActions { inst with core_suggest_result := f } gas states =
      populateActions inst gas states := by
  induction gas with
  | nil => intro states; rfl
  | cons ga rest ih =>
    intro states
    simp only [populateActions, insertGodStates_suggest_indep, ih]

theorem attachProfiles_suggest_indep (inst : InstanceWrapper)
    (f : XrPath → List (Nat × XrPath) → Int)
    (entries : List (XrPath × GodActionSet)) :
    ∀ gs calls calls', calls.map SuggestCall.shape = calls'.map SuggestCall.shape →
      (attachProfiles { inst with core_suggest_result := f } entries gs calls).1 =
        (attachProfiles inst entries gs calls').1 ∧
      (attachProfiles { inst with core_suggest_result := f } entries gs calls).2.map SuggestCall.shape =
        (attachProfiles inst entries gs calls').2.map SuggestCall.shape := by
  induction entries with
  | nil =>
    intro gs calls calls' hshape
    exact ⟨rfl, hshape⟩
  | cons entry rest ih =>
    intro gs calls calls' hshape
    obtain ⟨profile_name, god_action_set⟩ := entry
    simp only [attachProfiles, populateActions_suggest_indep]
    cases hpop : populateActions inst (god_action_set.god_actions.map Prod.snd)
        ((lookupAssoc gs profile_name).getD []) with
    | err r => exact ⟨rfl, hshape⟩
    | panicked m => exact ⟨rfl, hshape⟩
    | ok states =>
      apply ih
      simp [hshape, SuggestCall.shape]

/-- An input action kind always has a rest state, so the `.unwrap()` on
`ActionState::new` inside the input-filtered loop cannot fire. -/
theorem ActionState.new_isSome_of_input (t : ActionType) (h : t.is_input = true) :
    ∃ st, ActionState.new t = some st := by
  cases t with
  | BooleanInput => exact ⟨_, rfl⟩
  | FloatInput => exact ⟨_, rfl⟩
  | Vector2fInput => exact ⟨_, rfl⟩
  | PoseInput => exact ⟨_, rfl⟩
  | VibrationOutput => exact absurd h (by decide)
  | Unknown => exact absurd h (by decide)

theorem insertGodStates_ok_resolutions (inst : InstanceWrapper) (ga : GodAction) :
    ∀ (sps : List XrPath) (states states' : List (XrPath × GodState)),
      insertGodStates inst ga sps states = XrStep.ok states' →
      ∀ sp ∈ sps, exceptOk (bindingKey inst ga sp) = true := by
  intro sps
  induction sps with
  | nil => intro states states' _ sp hsp; cases hsp
  | cons sp0 rest ih =>
    intro states states' h sp hsp
    cases hps : inst.core_path_to_string sp0 with
    | error r => simp only [insertGodStates, hps] at h; cases h
    | ok ps =>
      cases hkey : inst.core_string_to_path (ps ++ ga.name) with
      | error r => simp only [insertGodStates, hps, hkey] at h; cases h
      | ok key =>
        cases hst : ActionState.new ga.action_type with
        | none => simp only [insertGodStates, hps, hkey, hst] at h; cases h
        | some st =>
          simp only [insertGodStates, hps, hkey, hst] at h
          rcases List.mem_cons.mp hsp with h0 | hr
          · subst h0
            have hbk : bindingKey inst ga sp = Except.ok key := by
              rw [bindingKey, hps]; exact hkey
            rw [hbk]
            rfl
          · exact ih _ _ h sp hr

theorem insertGodStates_not_panicked (inst : InstanceWrapper) (ga : GodAction)
    (hsome : ∃ st, ActionState.new ga.action_type = some st) :
    ∀ (sps : List XrPath) (states : List (XrPath × GodState)),
      (insertGodStates inst ga sps states).isPanicked = false := by
  obtain ⟨st0, hst0⟩ := hsome
  intro sps
  induction sps with
  | nil => intro states; rfl
  | cons sp rest ih =>
    intro states
    cases hps : inst.core_path_to_string sp with
    | error r => simp [insertGodStates, hps, XrStep.isPanicked]
    | ok ps =>
      cases hkey : inst.core_string_to_path (ps ++ ga.name) with
      | error r => simp [insertGodStates, hps, hkey, XrStep.isPanicked]
      | ok key =>
        simp only [insertGodStates, hps, hkey, hst0]
        exact ih _

theorem populateActions_ok_resolutions (inst : InstanceWrapper) :
    ∀ (gas : List GodAction) (states states' : List (XrPath × GodState)),
      populateActions inst gas states = XrStep.ok states' →
      ∀ ga ∈ gas, ga.action_type.is_input = true →
      ∀ sp ∈ ga.subaction_paths, exceptOk (bindingKey inst ga sp) = true := by
  intro gas
  induction gas with
  | nil => intro states states' _ ga hga; cases hga
  | cons ga0 rest ih =>
    intro states states' h ga hga hin sp hsp
    rcases List.mem_cons.mp hga with h0 | hr
    · subst h0
      simp only [populateActions, hin, if_true] at h
      cases hins : insertGodStates inst ga ga.subaction_paths states with
      | err r => simp only [hins] at h; cases h
      | panicked m => simp only [hins] at h; cases h
      | ok states1 =>
        exact insertGodStates_ok_resolutions inst ga _ states states1 hins sp hsp
    · cases hin0 : ga0.action_type.is_input with
      | false =>
        simp only [populateActions, hin0, Bool.false_eq_true, if_false] at h
        exact ih _ _ h ga hr hin sp hsp
      | true =>
        simp only [populateActions, hin0, if_true] at h
        cases hins : insertGodStates inst ga0 ga0.subaction_paths states with
        | err r => simp only [hins] at h; cases h
        | panicked m => simp only [hins] at h; cases h
        | ok states1 =>
          simp only [hins] at h
          exact ih _ _ h ga hr hin sp hsp

theorem populateActions_not_panicked (inst : InstanceWrapper) :
    ∀ (gas : List GodAction) (states : List (XrPath × GodState)),
      (populateActions inst gas states).isPanicked = false := by
  intro gas
  induction gas with
  | nil => intro states; rfl
  | cons ga rest ih =>
    intro states
    cases hin : ga.action_type.is_input with
    | false =>
      simp only [populateActions, hin, Bool.false_eq_true, if_false]
      exact ih _
    | true =>
      simp only [populateActions, hin, if_true]
      cases hins : insertGodStates inst ga ga.subaction_paths states with
      | err r => rfl
      | panicked m =>
        have hnp := insertGodStates_not_panicked inst ga
          (ActionState.new_isSome_of_input ga.action_type hin) ga.subaction_paths states
        rw [hins] at hnp
        simp [XrStep.isPanicked] at hnp
      | ok states1 => exact ih _

theorem attachProfiles_ok_resolutions (inst : InstanceWrapper) :
    ∀ (entries : List (XrPath × GodActionSet)) gs calls gsF,
      (attachProfiles inst entries gs calls).1 = XrStep.ok gsF →
      ∀ pg ∈ entries, ∀ ga ∈ pg.2.god_actions.map Prod.snd,
      ga.action_type.is_input = true → ∀ sp ∈ ga.subaction_paths,
      exceptOk (bindingKey inst ga sp) = true := by
  intro entries
  induction entries with
  | nil => intro gs calls gsF _ pg hpg; cases hpg
  | cons entry rest ih =>
    intro gs calls gsF h pg hpg
    obtain ⟨p0, gset0⟩ := entry
    cases hpop : populateActions inst (gset0.god_actions.map Prod.snd)
        ((lookupAssoc gs p0).getD []) with
    | err r => simp [attachProfiles, hpop] at h
    | panicked m => simp [attachProfiles, hpop] at h
    | ok states0 =>
      simp only [attachProfiles, hpop] at h
      rcases List.mem_cons.mp hpg with h0 | hr
      · subst h0
        intro ga hga hin sp hsp
        exact populateActions_ok_resolutions inst _ _ states0 hpop ga hga hin sp hsp
      · exact ih _ _ gsF h pg hr

theorem attachProfiles_not_panicked (inst : InstanceWrapper) :
    ∀ (entries : List (XrPath × GodActionSet)) gs calls,
      ((attachProfiles inst entries gs calls).1).isPanicked = false := by
  intro entries
  induction entries with
  | nil => intro gs calls; rfl
  | cons entry rest ih =>
    intro gs calls
    obtain ⟨p0, gset0⟩ := entry
    cases hpop : populateActions inst (gset0.god_actions.map Prod.snd)
        ((lookupAssoc gs p0).getD []) with
    | err r => simp [attachProfiles, hpop, XrStep.isPanicked]
    | panicked m =>
      have hnp := populateActions_not_panicked inst (gset0.god_actions.map Prod.snd)
        ((lookupAssoc gs p0).getD [])
      rw [hpop] at hnp
      simp [XrStep.isPanicked] at hnp
    | ok states0 =>
      simp only [attachProfiles, hpop]
      exact ih _ _

/-- C4 (amended): a failure of the forwarded attach-action-sets call, or
of a path resolution (`path_to_string` / `string_to_path`, composed in
`bindingKey`) for any input god action's subaction path while populating
god states, is reported to the caller as an error result — the
constructor returns an error, never success; but the result of each
forwarded suggest-bindings call is ignored — it affects neither the
constructor's outcome class nor which suggest calls are forwarded. -/
theorem session_new_error_reporting_amended (handle : Nat) (inst : InstanceWrapper)
    (f : XrPath → List (Nat × XrPath) → Int) :
    (inst.core_attach_result < 0 →
      (SessionWrapper.new handle inst).1 = XrStep.err inst.core_attach_result) ∧
    (∀ pg ∈ inst.god_action_sets, ∀ ga ∈ pg.2.god_actions.map Prod.snd,
      ga.action_type.is_input = true → ∀ sp ∈ ga.subaction_paths,
      exceptOk (bindingKey inst ga sp) = false →
      ∃ r : Int, (SessionWrapper.new handle inst).1 = XrStep.err r) ∧
    (SessionWrapper.new handle { inst with core_suggest_result := f }).1.discard =
      (SessionWrapper.new handle inst).1.discard ∧
    (SessionWrapper.new handle { inst with core_suggest_result := f }).2.map SuggestCall.shape =
      (SessionWrapper.new handle inst).2.map SuggestCall.shape := by
  refine ⟨fun hfail => by simp [SessionWrapper.new, hfail], ?_, ?_⟩
  · intro pg hpg ga hga hin sp hsp hfailbk
    by_cases hatt : inst.core_attach_result < 0
    · exact ⟨inst.core_attach_result, by simp [SessionWrapper.new, hatt]⟩
    · rcases hA : attachProfiles inst inst.god_action_sets [] [] with ⟨o, callsA⟩
      cases o with
      | ok gsF =>
        have hok := attachProfiles_ok_resolutions inst inst.god_action_sets [] [] gsF
          (by rw [hA]) pg hpg ga hga hin sp hsp
        simp [hfailbk] at hok
      | err r => exact ⟨r, by simp [SessionWrapper.new, hatt, hA]⟩
      | panicked m =>
        have hnp := attachProfiles_not_panicked inst inst.god_action_sets [] []
        rw [hA] at hnp
        simp [XrStep.isPanicked] at hnp
  obtain ⟨h1, h2⟩ := attachProfiles_suggest_indep inst f inst.god_action_sets [] [] [] rfl
  by_cases hatt : inst.core_attach_result < 0
  · simp [SessionWrapper.new, hatt]
  · rcases hA : attachProfiles inst inst.god_action_sets [] [] with ⟨o, calls⟩
    rcases hA' : attachProfiles { inst with core_suggest_result := f }
        inst.god_action_sets [] [] with ⟨o', calls'⟩
    rw [hA, hA'] at h1 h2
    simp only at h1 h2
    subst h1
    cases o' with
    | ok gs => simp [SessionWrapper.new, hatt, hA, hA', XrStep.discard, h2]
    | err r => simp [SessionWrapper.new, hatt, hA, hA', XrStep.discard, h2]
    | panicked m => simp [SessionWrapper.new, hatt, hA, hA', XrStep.discard, h2]

/-! ### C1/C2: god-state population and suggest-bindings forwarding -/

theorem insertGodStates_frame (inst : InstanceWrapper) (ga : GodAction) :
    ∀ (sps : List XrPath) (states states' : List (XrPath × GodState)),
      insertGodStates inst ga sps states = XrStep.ok states' →
      ∀ k : XrPath, (∀ sp ∈ sps, bindingKey inst ga sp ≠ Except.ok k) →
      lookupAssoc states' k = lookupAssoc states k := by
  intro sps
  induction sps with
  | nil =>
    intro states states' h k _
    cases h
    rfl
  | cons sp rest ih =>
    intro states states' h k hk
    cases hps : inst.core_path_to_string sp with
    | error r => simp only [insertGodStates, hps] at h; cases h
    | ok ps =>
      cases hkey : inst.core_string_to_path (ps ++ ga.name) with
      | error r => simp only [insertGodStates, hps, hkey] at h; cases h
      | ok key =>
        cases hst : ActionState.new ga.action_type with
        | none => simp only [insertGodStates, hps, hkey, hst] at h; cases h
        | some st =>
          simp only [insertGodStates, hps, hkey, hst] at h
          have hbk : bindingKey inst ga sp = Except.ok key := by
            rw [bindingKey, hps]; exact hkey
          have hne : key ≠ k := fun e => hk sp (List.mem_cons_self sp rest) (e ▸ hbk)
          have hrest : ∀ sp' ∈ rest, bindingKey inst ga sp' ≠ Except.ok k :=
            fun sp' h' => hk sp' (List.mem_cons_of_mem sp h')
          rw [ih _ states' h k hrest, lookupAssoc_insertAssoc_ne _ _ _ _ (fun e => hne e.symm)]

theorem insertGodStates_mem (inst : InstanceWrapper) (ga : GodAction) :
    ∀ (sps : List XrPath) (states states' : List (XrPath × GodState)),
      insertGodStates inst ga sps states = XrStep.ok states' →
      (∀ sp ∈ sps, ∀ sp' ∈ sps, ∀ k : XrPath, bindingKey inst ga sp = Except.ok k →
        bindingKey inst ga sp' = Except.ok k → sp = sp') →
      ∀ sp ∈ sps, ∃ ps k st,
        inst.core_path_to_string sp = Except.ok ps ∧
        inst.core_string_to_path (ps ++ ga.name) = Except.ok k ∧
        ActionState.new ga.action_type = some st ∧
        lookupAssoc states' k = some
          { action_handle := ga.handle, name := ps ++ ga.name,
            subaction_path := sp, action_state := st } := by
  intro sps
  induction sps with
  | nil => intro states states' _ _ sp hsp; cases hsp
  | cons sp0 rest ih =>
    intro states states' h hinj sp hsp
    cases hps : inst.core_path_to_string sp0 with
    | error r => simp only [insertGodStates, hps] at h; cases h
    | ok ps0 =>
      cases hkey : inst.core_string_to_path (ps0 ++ ga.name) with
      | error r => simp only [insertGodStates, hps, hkey] at h; cases h
      | ok key0 =>
        rcases hst : ActionState.new ga.action_type with _ | st0
        · simp only [insertGodStates, hps, hkey, hst] at h; cases h
        · simp only [insertGodStates, hps, hkey, hst] at h
          have hbk0 : bindingKey inst ga sp0 = Except.ok key0 := by
            rw [bindingKey, hps]; exact hkey
          have hinjrest : ∀ a ∈ rest, ∀ b ∈ rest, ∀ k : XrPath,
              bindingKey inst ga a = Except.ok k → bindingKey inst ga b = Except.ok k → a = b :=
            fun a ha b hb => hinj a (List.mem_cons_of_mem sp0 ha) b (List.mem_cons_of_mem sp0 hb)
          rcases List.mem_cons.mp hsp with hsp0 | hsprest
          · subst hsp0
            refine ⟨ps0, key0, st0, hps, hkey, rfl, ?_⟩
            by_cases hc : ∃ sp' ∈ rest, bindingKey inst ga sp' = Except.ok key0
            · obtain ⟨sp', hsp', hbk'⟩ := hc
              have heq : sp = sp' := hinj sp (List.mem_cons_self sp rest) sp'
                (List.mem_cons_of_mem sp hsp') key0 hbk0 hbk'
              obtain ⟨ps, k, st, h1, h2, h3, h4⟩ := ih _ states' h hinjrest sp (heq ▸ hsp')
              rw [hps] at h1
              injection h1 with h1e
              subst h1e
              rw [hkey] at h2
              injection h2 with h2e
              subst h2e
              rw [hst] at h3
              injection h3 with h3e
              subst h3e
              exact h4
            · push_neg at hc
              rw [insertGodStates_frame inst ga rest _ states' h key0 hc,
                lookupAssoc_insertAssoc_self]
          · obtain ⟨ps, k, st, h1, h2, h3, h4⟩ := ih _ states' h hinjrest sp hsprest
            exact ⟨ps, k, st, h1, h2, hst ▸ h3, h4⟩

theorem populateActions_frame (inst : InstanceWrapper) :
    ∀ (gas : List GodAction) (states states' : List (XrPath × GodState)),
      populateActions inst gas states = XrStep.ok states' →
      ∀ k : XrPath,
      (∀ ga ∈ gas, ga.action_type.is_input = true →
        ∀ sp ∈ ga.subaction_paths, bindingKey inst ga sp ≠ Except.ok k) →
      lookupAssoc states' k = lookupAssoc states k := by
  intro gas
  induction gas with
  | nil => intro states states' h k _; cases h; rfl
  | cons ga rest ih =>
    intro states states' h k hk
    have hkrest : ∀ g ∈ rest, g.action_type.is_input = true →
        ∀ sp ∈ g.subaction_paths, bindingKey inst g sp ≠ Except.ok k :=
      fun g hg => hk g (List.mem_cons_of_mem ga hg)
    cases hin : ga.action_type.is_input with
    | false =>
      simp only [populateActions, hin, Bool.false_eq_true, if_false] at h
      exact ih _ _ h k hkrest
    | true =>
      simp only [populateActions, hin, if_true] at h
      cases hins : insertGodStates inst ga ga.subaction_paths states with
      | err r => simp only [hins] at h; cases h
      | panicked m => simp only [hins] at h; cases h
      | ok states1 =>
        simp only [hins] at h
        rw [ih _ _ h k hkrest]
        exact insertGodStates_frame inst ga ga.subaction_paths states states1 hins k
          (hk ga (List.mem_cons_self ga rest) hin)

theorem populateActions_mem (inst : InstanceWrapper) :
    ∀ (gas : List GodAction) (states states' : List (XrPath × GodState)),
      populateActions inst gas states = XrStep.ok states' →
      (∀ ga ∈ gas, ga.action_type.is_input = true → ∀ sp ∈ ga.subaction_paths,
       ∀ ga' ∈ gas, ga'.action_type.is_input = true → ∀ sp' ∈ ga'.subaction_paths,
       ∀ k : XrPath, bindingKey inst ga sp = Except.ok k →
         bindingKey inst ga' sp' = Except.ok k → ga = ga' ∧ sp = sp') →
      ∀ ga ∈ gas, ga.action_type.is_input = true → ∀ sp ∈ ga.subaction_paths,
      ∃ ps k st,
        inst.core_path_to_string sp = Except.ok ps ∧
        inst.core_string_to_path (ps ++ ga.name) = Except.ok k ∧
        ActionState.new ga.action_type = some st ∧
        lookupAssoc states' k = some
          { action_handle := ga.handle, name := ps ++ ga.name,
            subaction_path := sp, action_state := st } := by
  intro gas
  induction gas with
  | nil => intro states states' _ _ ga hga; cases hga
  | cons ga0 rest ih =>
    intro states states' h hinj ga hga hin sp hsp
    have hinjrest : ∀ a ∈ rest, a.action_type.is_input = true → ∀ b ∈ a.subaction_paths,
        ∀ a' ∈ rest, a'.action_type.is_input = true → ∀ b' ∈ a'.subaction_paths,
        ∀ k : XrPath, bindingKey inst a b = Except.ok k →
          bindingKey inst a' b' = Except.ok k → a = a' ∧ b = b' :=
      fun a ha hia b hb a' ha' hia' b' hb' =>
        hinj a (List.mem_cons_of_mem ga0 ha) hia b hb a'
          (List.mem_cons_of_mem ga0 ha') hia' b' hb'
    rcases List.mem_cons.mp hga with hga0 | hgarest
    · subst hga0
      simp only [populateActions, hin, if_true] at h
      cases hins : insertGodStates inst ga ga.subaction_paths states with
      | err r => simp only [hins] at h; cases h
      | panicked m => simp only [hins] at h; cases h
      | ok states1 =>
        simp only [hins] at h
        have hinj1 : ∀ a ∈ ga.subaction_paths, ∀ b ∈ ga.subaction_paths, ∀ k : XrPath,
            bindingKey inst ga a = Except.ok k → bindingKey inst ga b = Except.ok k → a = b :=
          fun a ha b hb k h1 h2 =>
            (hinj ga (List.mem_cons_self ga rest) hin a ha ga
              (List.mem_cons_self ga rest) hin b hb k h1 h2).2
        obtain ⟨ps, k, st, h1, h2, h3, h4⟩ :=
          insertGodStates_mem inst ga ga.subaction_paths states states1 hins hinj1 sp hsp
        by_cases hc : ∃ ga' ∈ rest, ∃ sp' ∈ ga'.subaction_paths,
            ga'.action_type.is_input = true ∧ bindingKey inst ga' sp' = Except.ok k
        · obtain ⟨ga', hga', sp', hsp', hin', hbk'⟩ := hc
          have hbk : bindingKey inst ga sp = Except.ok k := by
            rw [bindingKey, h1]; exact h2
          obtain ⟨hgaeq, hspeq⟩ := hinj ga (List.mem_cons_self ga rest) hin sp hsp ga'
            (List.mem_cons_of_mem _ hga') hin' sp' hsp' k hbk hbk'
          obtain ⟨ps', k', st', g1, g2, g3, g4⟩ :=
            ih _ _ h hinjrest ga (hgaeq ▸ hga') hin sp hsp
          rw [h1] at g1
          injection g1 with g1e
          subst g1e
          rw [h2] at g2
          injection g2 with g2e
          subst g2e
          rw [h3] at g3
          injection g3 with g3e
          subst g3e
          exact ⟨ps, k, st, h1, h2, h3, g4⟩
        · push_neg at hc
          have hcf : ∀ g ∈ rest, g.action_type.is_input = true →
              ∀ sp' ∈ g.subaction_paths, bindingKey inst g sp' ≠ Except.ok k :=
            fun g hg hig sp' hsp' hbk => hc g hg sp' hsp' hig hbk
          refine ⟨ps, k, st, h1, h2, h3, ?_⟩
          rw [populateActions_frame inst rest states1 states' h k hcf]
          exact h4
    · cases hin0 : ga0.action_type.is_input with
      | false =>
        simp only [populateActions, hin0, Bool.false_eq_true, if_false] at h
        exact ih _ _ h hinjrest ga hgarest hin sp hsp
      | true =>
        simp only [populateActions, hin0, if_true] at h
        cases hins : insertGodStates inst ga0 ga0.subaction_paths states with
        | err r => simp only [hins] at h; cases h
        | panicked m => simp only [hins] at h; cases h
        | ok states1 =>
          simp only [hins] at h
          exact ih _ _ h hinjrest ga hgarest hin sp hsp

theorem attachProfiles_calls (inst : InstanceWrapper) :
    ∀ (entries : List (XrPath × GodActionSet)) gs calls, ∃ newCalls,
      (attachProfiles inst entries gs calls).2 = calls ++ newCalls ∧
      ∀ c ∈ newCalls, c.interaction_profile ∈ entries.map Prod.fst := by
  intro entries
  induction entries with
  | nil =>
    intro gs calls
    exact ⟨[], by simp [attachProfiles], by simp⟩
  | cons entry rest ih =>
    intro gs calls
    obtain ⟨profile_name, god_action_set⟩ := entry
    cases hpop : populateActions inst (god_action_set.god_actions.map Prod.snd)
        ((lookupAssoc gs profile_name).getD []) with
    | err r => exact ⟨[], by simp [attachProfiles, hpop], by simp⟩
    | panicked m => exact ⟨[], by simp [attachProfiles, hpop], by simp⟩
    | ok states =>
      obtain ⟨nc, hnc1, hnc2⟩ := ih (insertAssoc gs profile_name states)
        (calls ++ [{ interaction_profile := profile_name,
                     suggested_bindings := states.map (fun e => (e.2.action_handle, e.1)),
                     result := inst.core_suggest_result profile_name
                       (states.map (fun e => (e.2.action_handle, e.1))) }])
      refine ⟨{ interaction_profile := profile_name,
                suggested_bindings := states.map (fun e => (e.2.action_handle, e.1)),
                result := inst.core_suggest_result profile_name
                  (states.map (fun e => (e.2.action_handle, e.1))) } :: nc, ?_, ?_⟩
      · simp only [attachProfiles, hpop]
        rw [hnc1]
        simp
      · intro c hc
        rcases List.mem_cons.mp hc with hc0 | hcrest
        · subst hc0; simp
        · simp only [List.map_cons, List.mem_cons]
          exact Or.inr (hnc2 c hcrest)

theorem attachProfiles_gs_frame (inst : InstanceWrapper) :
    ∀ (entries : List (XrPath × GodActionSet)) gs calls gsF callsF,
      attachProfiles inst entries gs calls = (XrStep.ok gsF, callsF) →
      ∀ q : XrPath, q ∉ entries.map Prod.fst →
      lookupAssoc gsF q = lookupAssoc gs q := by
  intro entries
  induction entries with
  | nil =>
    intro gs calls gsF callsF h q _
    simp only [attachProfiles, Prod.mk.injEq, XrStep.ok.injEq] at h
    rw [← h.1]
  | cons entry rest ih =>
    intro gs calls gsF callsF h q hq
    obtain ⟨profile_name, god_action_set⟩ := entry
    simp only [List.map_cons, List.mem_cons, not_or] at hq
    cases hpop : populateActions inst (god_action_set.god_actions.map Prod.snd)
        ((lookupAssoc gs profile_name).getD []) with
    | err r => simp [attachProfiles, hpop] at h
    | panicked m => simp [attachProfiles, hpop] at h
    | ok states =>
      simp only [attachProfiles, hpop] at h
      rw [ih _ _ gsF callsF h q hq.2,
        lookupAssoc_insertAssoc_ne _ _ _ _ hq.1]

theorem attachProfiles_main (inst : InstanceWrapper) :
    ∀ (entries : List (XrPath × GodActionSet)) gs calls gsF callsF,
      attachProfiles inst entries gs calls = (XrStep.ok gsF, callsF) →
      (entries.map Prod.fst).Nodup →
      (∀ pg ∈ entries, lookupAssoc gs pg.1 = none) →
      ∀ pg ∈ entries, ∃ states,
        populateActions inst (pg.2.god_actions.map Prod.snd) [] = XrStep.ok states ∧
        lookupAssoc gsF pg.1 = some states ∧
        callsF.filter (fun c => c.interaction_profile == pg.1) =
          calls.filter (fun c => c.interaction_profile == pg.1) ++
          [{ interaction_profile := pg.1,
             suggested_bindings := states.map (fun e => (e.2.action_handle, e.1)),
             result := inst.core_suggest_result pg.1
               (states.map (fun e => (e.2.action_handle, e.1))) }] := by
  intro entries
  induction entries with
  | nil => intro gs calls gsF callsF _ _ _ pg hpg; cases hpg
  | cons entry rest ih =>
    intro gs calls gsF callsF h hnodup hfresh pg hpg
    obtain ⟨p0, gset0⟩ := entry
    simp only [List.map_cons, List.nodup_cons] at hnodup
    cases hpop : populateActions inst (gset0.god_actions.map Prod.snd)
        ((lookupAssoc gs p0).getD []) with
    | err r => simp [attachProfiles, hpop] at h
    | panicked m => simp [attachProfiles, hpop] at h
    | ok states0 =>
      simp only [attachProfiles, hpop] at h
      have hfresh0 : lookupAssoc gs p0 = none :=
        hfresh (p0, gset0) (List.mem_cons_self _ _)
      rw [hfresh0, Option.getD_none] at hpop
      rcases List.mem_cons.mp hpg with hpg0 | hpgrest
      · subst hpg0
        refine ⟨states0, hpop, ?_, ?_⟩
        · rw [attachProfiles_gs_frame inst rest _ _ gsF callsF h p0 hnodup.1,
            lookupAssoc_insertAssoc_self]
        · obtain ⟨nc, hnc1, hnc2⟩ := attachProfiles_calls inst rest
            (insertAssoc gs p0 states0)
            (calls ++ [{ interaction_profile := p0,
                         suggested_bindings := states0.map (fun e => (e.2.action_handle, e.1)),
                         result := inst.core_suggest_result p0
                           (states0.map (fun e => (e.2.action_handle, e.1))) }])
          rw [h] at hnc1
          have hncf : nc.filter (fun c => c.interaction_profile == p0) = [] := by
            refine List.filter_eq_nil_iff.mpr (fun c hcm => ?_)
            simp only [beq_iff_eq]
            intro he
            exact hnodup.1 (he ▸ hnc2 c hcm)
          simp only at hnc1
          rw [hnc1, List.filter_append, List.filter_append, hncf, List.append_nil]
          simp
      · have hfreshr : ∀ pg' ∈ rest, lookupAssoc (insertAssoc gs p0 states0) pg'.1 = none := by
          intro pg' hpg'
          have hne : pg'.1 ≠ p0 := by
            intro he
            exact hnodup.1 (he ▸ List.mem_map_of_mem Prod.fst hpg')
          rw [lookupAssoc_insertAssoc_ne _ _ _ _ hne]
          exact hfresh pg' (List.mem_cons_of_mem _ hpg')
        obtain ⟨states, hs1, hs2, hs3⟩ := ih _ _ gsF callsF h hnodup.2 hfreshr pg hpgrest
        refine ⟨states, hs1, hs2, ?_⟩
        rw [hs3, List.filter_append]
        have hp0ne : ¬ (p0 == pg.1) = true := by
          simp only [beq_iff_eq]
          intro he
          exact hnodup.1 (he ▸ List.mem_map_of_mem Prod.fst hpgrest)
        simp [List.filter_cons, hp0ne]

deriving instance DecidableEq for Except

/-- C1: after a successful `SessionWrapper::new` (attach succeeded and the
construction returned the wrapper), for every profile of the registry, for
every god action of an input kind, and for every subaction path of that
god action (the subaction paths declared by its profile), a god state
exists in the session's `god_states` map under that profile, keyed by the
native path resolved from the concatenation of the subaction path string
and the god action's name, and seeded with the rest-state `ActionState`
for the god action's kind (boolean=false, float=0, vector2f=(0,0),
pose=invalid — the first conjunct spells these out).  The hypotheses state
that the profile keys of the registry are distinct (they are `HashMap`
keys) and that the next layer's path resolution does not alias two
distinct bindings of a profile to one native path. -/
theorem session_new_god_states_populated (handle : Nat) (inst : InstanceWrapper)
    (w : SessionWrapper) (calls : List SuggestCall)
    (hnew : SessionWrapper.new handle inst = (XrStep.ok w, calls))
    (hnodup : (inst.god_action_sets.map Prod.fst).Nodup)
    (hinj : ∀ pg ∈ inst.god_action_sets,
      ∀ ga ∈ pg.2.god_actions.map Prod.snd, ga.action_type.is_input = true →
      ∀ sp ∈ ga.subaction_paths,
      ∀ ga' ∈ pg.2.god_actions.map Prod.snd, ga'.action_type.is_input = true →
      ∀ sp' ∈ ga'.subaction_paths,
      bindingKey inst ga sp = bindingKey inst ga' sp' →
      exceptOk (bindingKey inst ga sp) = true →
      ga = ga' ∧ sp = sp') :
    (ActionState.new ActionType.BooleanInput = some (ActionState.boolean false false false) ∧
     ActionState.new ActionType.FloatInput = some (ActionState.float 0 false false) ∧
     ActionState.new ActionType.Vector2fInput = some (ActionState.vector2f 0 0 false false) ∧
     ActionState.new ActionType.PoseInput = some (ActionState.pose false)) ∧
    ∀ pg ∈ inst.god_action_sets,
    ∀ ga ∈ pg.2.god_actions.map Prod.snd, ga.action_type.is_input = true →
    ∀ sp ∈ ga.subaction_paths,
    ∃ ps k st states,
      inst.core_path_to_string sp = Except.ok ps ∧
      inst.core_string_to_path (ps ++ ga.name) = Except.ok k ∧
      ActionState.new ga.action_type = some st ∧
      lookupAssoc w.god_states pg.1 = some states ∧
      lookupAssoc states k = some
        { action_handle := ga.handle, name := ps ++ ga.name,
          subaction_path := sp, action_state := st } := by
  refine ⟨⟨rfl, rfl, rfl, rfl⟩, ?_⟩
  intro pg hpg ga hga hin sp hsp
  by_cases hatt : inst.core_attach_result < 0
  · simp [SessionWrapper.new, hatt] at hnew
  · rcases hA : attachProfiles inst inst.god_action_sets [] [] with ⟨o, callsA⟩
    cases o with
    | err r => simp [SessionWrapper.new, hatt, hA] at hnew
    | panicked m => simp [SessionWrapper.new, hatt, hA] at hnew
    | ok gsF =>
      simp only [SessionWrapper.new, hatt, if_false, hA, Prod.mk.injEq,
        XrStep.ok.injEq] at hnew
      obtain ⟨hw, hcalls⟩ := hnew
      obtain ⟨states, hs1, hs2, _⟩ := attachProfiles_main inst inst.god_action_sets
        [] [] gsF callsA hA hnodup (fun _ _ => rfl) pg hpg
      have hinjm : ∀ a ∈ pg.2.god_actions.map Prod.snd, a.action_type.is_input = true →
          ∀ b ∈ a.subaction_paths,
          ∀ a' ∈ pg.2.god_actions.map Prod.snd, a'.action_type.is_input = true →
          ∀ b' ∈ a'.subaction_paths,
          ∀ k : XrPath, bindingKey inst a b = Except.ok k →
            bindingKey inst a' b' = Except.ok k → a = a' ∧ b = b' :=
        fun a ha hia b hb a' ha' hia' b' hb' k hk hk' =>
          hinj pg hpg a ha hia b hb a' ha' hia' b' hb'
            (hk.trans hk'.symm) (by rw [hk]; rfl)
      obtain ⟨ps, k, st, h1, h2, h3, h4⟩ := populateActions_mem inst
        (pg.2.god_actions.map Prod.snd) [] states hs1 hinjm ga hga hin sp hsp
      refine ⟨ps, k, st, states, h1, h2, h3, ?_, h4⟩
      rw [← hw]
      exact hs2

/-- C2: during a successful `SessionWrapper::new`, for every profile of
the registry (not only profiles the application used), exactly one
suggest-bindings call is forwarded for that profile, carrying every
accumulated `(god action handle, resolved binding path)` pair of that
profile's god-state map. -/
theorem session_new_suggest_once_per_profile (handle : Nat) (inst : InstanceWrapper)
    (w : SessionWrapper) (calls : List SuggestCall)
    (hnew : SessionWrapper.new handle inst = (XrStep.ok w, calls))
    (hnodup : (inst.god_action_sets.map Prod.fst).Nodup) :
    ∀ pg ∈ inst.god_action_sets, ∃ states,
      lookupAssoc w.god_states pg.1 = some states ∧
      calls.filter (fun c => c.interaction_profile == pg.1) =
        [{ interaction_profile := pg.1,
           suggested_bindings := states.map (fun e => (e.2.action_handle, e.1)),
           result := inst.core_suggest_result pg.1
             (states.map (fun e => (e.2.action_handle, e.1))) }] := by
  intro pg hpg
  by_cases hatt : inst.core_attach_result < 0
  · simp [SessionWrapper.new, hatt] at hnew
  · rcases hA : attachProfiles inst inst.god_action_sets [] [] with ⟨o, callsA⟩
    cases o with
    | err r => simp [SessionWrapper.new, hatt, hA] at hnew
    | panicked m => simp [SessionWrapper.new, hatt, hA] at hnew
    | ok gsF =>
      simp only [SessionWrapper.new, hatt, if_false, hA, Prod.mk.injEq,
        XrStep.ok.injEq] at hnew
      obtain ⟨hw, hcalls⟩ := hnew
      obtain ⟨states, _, hs2, hs3⟩ := attachProfiles_main inst inst.god_action_sets
        [] [] gsF callsA hA hnodup (fun _ _ => rfl) pg hpg
      refine ⟨states, ?_, ?_⟩
      · rw [← hw]
        exact hs2
      · rw [← hcalls, hs3]
        simp

/-- The god action used by the concrete witness instance: one boolean
`select/click` input with both hand subaction paths. -/
def gaSelectBoth : GodAction :=
  { handle := 7, name := "/input/select/click", action_type := ActionType.BooleanInput,
    subaction_paths := [1, 2] }

/-- The witness god action set of profile path 100. -/
def gsetOk : GodActionSet :=
  { handle := 40, god_actions := [("/input/select/click", gaSelectBoth)] }

/-- A concrete instance whose next layer accepts every call: subaction
paths 1/2 resolve to the hand path strings, the two full binding names
resolve to native paths 11/12. -/
def cInstOk : InstanceWrapper :=
  { handle := 1
    god_action_sets := [(100, gsetOk)]
    core_path_to_string := fun sp =>
      if sp = 1 then Except.ok "/user/hand/left"
      else if sp = 2 then Except.ok "/user/hand/right"
      else Except.error (-1)
    core_string_to_path := fun s =>
      if s = "/user/hand/left/input/select/click" then Except.ok 11
      else if s = "/user/hand/right/input/select/click" then Except.ok 12
      else Except.error (-1)
    core_attach_result := 0
    core_suggest_result := fun _ _ => 0 }

/-- The session wrapper `SessionWrapper::new 9 cInstOk` produces. -/
def cSessionOk : SessionWrapper :=
  { handle := 9, instance_ref := some cInstOk,
    god_states := [(100,
      [(11, { action_handle := 7, name := "/user/hand/left/input/select/click",
              subaction_path := 1, action_state := ActionState.boolean false false false }),
       (12, { action_handle := 7, name := "/user/hand/right/input/select/click",
              subaction_path := 2, action_state := ActionState.boolean false false false })])] }

/-- The suggest-bindings calls `SessionWrapper::new 9 cInstOk` forwards. -/
def cCallsOk : List SuggestCall :=
  [{ interaction_profile := 100, suggested_bindings := [(7, 11), (7, 12)], result := 0 }]

/-- Witness for C1 on the concrete instance, at profile 100, the boolean
select/click god action, and the left-hand subaction path 1. -/
theorem session_new_god_states_populated_witness :
    ∃ ps k st states,
      cInstOk.core_path_to_string 1 = Except.ok ps ∧
      cInstOk.core_string_to_path (ps ++ gaSelectBoth.name) = Except.ok k ∧
      ActionState.new gaSelectBoth.action_type = some st ∧
      lookupAssoc cSessionOk.god_states 100 = some states ∧
      lookupAssoc states k = some
        { action_handle := gaSelectBoth.handle, name := ps ++ gaSelectBoth.name,
          subaction_path := 1, action_state := st } :=
  (session_new_god_states_populated 9 cInstOk cSessionOk cCallsOk rfl
      (by decide) (by decide)).2
    (100, gsetOk) (by decide) gaSelectBoth (by decide) rfl 1 (by decide)

/-- Witness for C2 on the same concrete instance at profile 100. -/
theorem session_new_suggest_once_per_profile_witness :
    ∃ states,
      lookupAssoc cSessionOk.god_states 100 = some states ∧
      cCallsOk.filter (fun c => c.interaction_profile == 100) =
        [{ interaction_profile := 100,
           suggested_bindings := states.map (fun e => (e.2.action_handle, e.1)),
           result := cInstOk.core_suggest_result 100
             (states.map (fun e => (e.2.action_handle, e.1))) }] :=
  session_new_suggest_once_per_profile 9 cInstOk cSessionOk cCallsOk rfl
    (by decide) (100, gsetOk) (by decide)

/-- A concrete instance whose attach call succeeds but whose next layer
rejects every string-to-path resolution with error -7. -/
def cInstPathFail : InstanceWrapper :=
  { handle := 1
    god_action_sets := [(100, gsetOk)]
    core_path_to_string := fun sp =>
      if sp = 1 then Except.ok "/user/hand/left"
      else if sp = 2 then Except.ok "/user/hand/right"
      else Except.error (-1)
    core_string_to_path := fun _ => Except.error (-7)
    core_attach_result := 0
    core_suggest_result := fun _ _ => 0 }

/-- Witness for the amended C4: a concrete failing attach is reported, a
concrete failing binding-path resolution forces an error result, and
changing the suggest results of a succeeding instance leaves the outcome
class unchanged. -/
theorem session_new_error_reporting_amended_witness :
    (SessionWrapper.new 9 cInstAttachFail).1 = XrStep.err (-3) ∧
    (∃ r : Int, (SessionWrapper.new 9 cInstPathFail).1 = XrStep.err r) ∧
    (SessionWrapper.new 9
        { cInstSuggestFail with core_suggest_result := fun _ _ => 5 }).1.discard =
      (SessionWrapper.new 9 cInstSuggestFail).1.discard :=
  ⟨(session_new_error_reporting_amended 9 cInstAttachFail (fun _ _ => 0)).1 (by decide),
    (session_new_error_reporting_amended 9 cInstPathFail (fun _ _ => 0)).2.1
      (100, gsetOk) (by decide) gaSelectBoth (by decide) rfl 1 (by decide) (by decide),
    (session_new_error_reporting_amended 9 cInstSuggestFail (fun _ _ => 5)).2.2.1⟩

/-! ### Dispatch entry points (src/src/lib.rs)

The dispatch crate keeps its own `Rc`/`RefCell` wrapper graph in four
registries.  The wrapper structs live in that crate's `wrappers` module,
which is not under `src/`; their fields are fixed by the construction
sites in `lib.rs`.  `Rc` sharing between a registry and a parent's child
list is modelled by storing child handles in the parent and the wrappers
in the registries.  Each entry point takes the result the next layer
returned for the forwarded call (`fwd`) as an oracle argument, mirroring
the `if result.into_raw() < 0` early-return shape of the
source. -/

namespace Dispatch

/-- `xr::Result::ERROR_HANDLE_INVALID`. -/
def ERROR_HANDLE_INVALID : Int := -12

structure Instance where
  handle : Nat
  action_sets : List Nat
  application_name : String
  application_version : Nat
  engine_name : String
  engine_version : Nat
deriving DecidableEq

structure Session where
  handle : Nat
  instance_ref : Nat
deriving DecidableEq

structure ActionSet where
  handle : Nat
  instance_ref : Nat
  actions : List Nat
  name : String
  localized_name : String
  priority : Nat
deriving DecidableEq

structure Action where
  handle : Nat
  action_set_ref : Nat
  name : String
  action_type : Int
  subaction_paths : List Nat
  localized_name : String
deriving DecidableEq

structure ActionSetCreateInfo where
  action_set_name : String
  localized_action_set_name : String
  priority : Nat
deriving DecidableEq

structure ActionCreateInfo where
  action_name : String
  action_type : Int
  subaction_paths : List Nat
  localized_action_name : String
deriving DecidableEq

/-- The four `INSTANCES`/`SESSIONS`/`ACTION_SETS`/`ACTIONS` registries. -/
structure LayerState where
  instances : List (Nat × Instance)
  sessions : List (Nat × Session)
  action_sets : List (Nat × ActionSet)
  actions : List (Nat × Action)
deriving DecidableEq

/-- `create_session` (lib.rs lines 117–138).  Modelled from the spec: the
`Instance::from_handle` of the missing dispatch wrappers module is a
Handle Registry lookup returning the wrapper or NotFound, surfaced as an
invalid-handle error (spec sections 4.1 and 7). -/
def create_session (st : LayerState) (instance_h : Nat) (fwd : Int)
    (session_h : Nat) : Int × LayerState :=
  match lookupAssoc st.instances instance_h with
  | none => (ERROR_HANDLE_INVALID, st)
  | some _ =>
    if fwd < 0 then (fwd, st)
    else
      (fwd,
        { st with
          sessions := insertAssoc st.sessions session_h
            ({ handle := session_h, instance_ref := instance_h }) })

/-- `create_action_set` (lib.rs lines 140–170); on success the new wrapper
joins both the instance's child list and the registry.  The handle lookup
is modelled from the spec as in `create_session`. -/
def create_action_set (st : LayerState) (instance_h : Nat)
    (create_info : ActionSetCreateInfo) (fwd : Int) (action_set_h : Nat) :
    Int × LayerState :=
  match lookupAssoc st.instances instance_h with
  | none => (ERROR_HANDLE_INVALID, st)
  | some iw =>
    if fwd < 0 then (fwd, st)
    else
      (fwd,
        { st with
          instances := insertAssoc st.instances instance_h
            ({ iw with action_sets := iw.action_sets ++ [action_set_h] }),
          action_sets := insertAssoc st.action_sets action_set_h
            ({ handle := action_set_h, instance_ref := instance_h, actions := [],
               name := create_info.action_set_name,
               localized_name := create_info.localized_action_set_name,
               priority := create_info.priority }) })

/-- `create_action` (lib.rs lines 172–201).  The handle lookup is
modelled from the spec as in `create_session`. -/
def create_action (st : LayerState) (action_set_h : Nat)
    (create_info : ActionCreateInfo) (fwd : Int) (action_h : Nat) :
    Int × LayerState :=
  match lookupAssoc st.action_sets action_set_h with
  | none => (ERROR_HANDLE_INVALID, st)
  | some asw =>
    if fwd < 0 then (fwd, st)
    else
      (fwd,
        { st with
          action_sets := insertAssoc st.action_sets action_set_h
            ({ asw with actions := asw.actions ++ [action_h] }),
          actions := insertAssoc st.actions action_h
            ({ handle := action_h, action_set_ref := action_set_h,
               name := create_info.action_name, action_type := create_info.action_type,
               subaction_paths := create_info.subaction_paths,
               localized_name := create_info.localized_action_name }) })

end Dispatch

/-- C5: for each intercepted creation call, when the forwarded call
returns an error, the entry point returns that same error code and the
layer state is unchanged — no wrapper joins any registry and no parent
child list is modified. -/
theorem dispatch_create_error_leaves_state (st : Dispatch.LayerState)
    (instance_h action_set_h session_h new_as_h new_a_h : Nat)
    (info_as : Dispatch.ActionSetCreateInfo) (info_a : Dispatch.ActionCreateInfo)
    (fwd : Int) (hfwd : fwd < 0)
    (hinst : (lookupAssoc st.instances instance_h).isSome = true)
    (has : (lookupAssoc st.action_sets action_set_h).isSome = true) :
    Dispatch.create_session st instance_h fwd session_h = (fwd, st) ∧
    Dispatch.create_action_set st instance_h info_as fwd new_as_h = (fwd, st) ∧
    Dispatch.create_action st action_set_h info_a fwd new_a_h = (fwd, st) := by
  rcases hoi : lookupAssoc st.instances instance_h with _ | iw
  · rw [hoi] at hinst; simp at hinst
  · rcases hoa : lookupAssoc st.action_sets action_set_h with _ | asw
    · rw [hoa] at has; simp at has
    · refine ⟨?_, ?_, ?_⟩ <;>
        simp [Dispatch.create_session, Dispatch.create_action_set,
          Dispatch.create_action, hoi, hoa, hfwd]

/-- Concrete registry state for the C5 witness: one live instance
(handle 1) and one live action set (handle 2). -/
def stD : Dispatch.LayerState :=
  { instances := [(1, { handle := 1, action_sets := [], application_name := "app",
                        application_version := 1, engine_name := "eng",
                        engine_version := 1 })]
    sessions := []
    action_sets := [(2, { handle := 2, instance_ref := 1, actions := [],
                          name := "set", localized_name := "Set", priority := 0 })]
    actions := [] }

/-- Witness for C5: forwarding error -2 leaves the concrete state
unchanged across all three creation entry points. -/
theorem dispatch_create_error_leaves_state_witness :
    Dispatch.create_session stD 1 (-2) 50 = (-2, stD) ∧
    Dispatch.create_action_set stD 1
      { action_set_name := "set2", localized_action_set_name := "Set2", priority := 0 }
      (-2) 51 = (-2, stD) ∧
    Dispatch.create_action stD 2
      { action_name := "a", action_type := 1, subaction_paths := [],
        localized_action_name := "A" }
      (-2) 52 = (-2, stD) :=
  dispatch_create_error_leaves_state stD 1 2 50 51 52
    { action_set_name := "set2", localized_action_set_name := "Set2", priority := 0 }
    { action_name := "a", action_type := 1, subaction_paths := [],
      localized_action_name := "A" }
    (-2) (by decide) (by decide) (by decide)

end OpenxrPP
